import Mathlib

/-!
Shallow embedding of the `mcp-tesla` HTTP client core and endpoint modules.

The embedding follows `src/tesla_mcp/base.py` (client core) and the endpoint
modules under `src/app copy/modules/` (`commands.py`, `charging.py`,
`energy.py`) and `src/tesla_mcp/modules/teslamateapi.py`.

Python runtime values that flow through the client (decoded JSON payloads,
`None`, raw text fallbacks) are modelled by `PyValue`; Python runtime errors
(`TypeError`, `KeyError`) by `PyError`.  HTTP responses are modelled by
`HttpResponse`, whose `jsonDecoded` field records the outcome of the
library call `response.json()` (`none` = the body is not decodable JSON);
outbound requests by `HttpRequest`.  Environment lookups (`os.getenv`) are
passed in explicitly as `Option String` arguments.
-/

/-- A Python runtime value as it appears in the client: `None`, strings,
ints, floats (modelled as rationals), booleans, lists and dicts
(association lists in insertion order, keys unique as produced by JSON
decoding and by the parameter builders). -/
inductive PyValue where
  | none
  | str (s : String)
  | int (n : Int)
  | num (q : Rat)
  | bool (b : Bool)
  | list (xs : List PyValue)
  | dict (fields : List (String × PyValue))

/-- A Python runtime error raised while manipulating a `PyValue`. -/
inductive PyError where
  | typeError (msg : String)
  | keyError (k : String)

/-- Python truthiness (`bool(v)`) for the value shapes the client handles. -/
def pyTruthy : PyValue → Bool
  | .none => false
  | .str s => s ≠ ""
  | .int n => n ≠ 0
  | .num q => q ≠ 0
  | .bool b => b
  | .list xs => !xs.isEmpty
  | .dict fs => !fs.isEmpty

/-- First binding of key `k` in an association-list dict, as `dict.get(k)`
would see it (`Option.none` = key absent). -/
def dictGet (fs : List (String × PyValue)) (k : String) : Option PyValue :=
  (fs.find? (fun p => p.1 = k)).map (fun p => p.2)

/-- Python `dict.get(k)`: the bound value, or `None` when the key is absent. -/
def dictGetD (fs : List (String × PyValue)) (k : String) : PyValue :=
  (dictGet fs k).getD .none

/-- Python dict assignment `d[k] = v`: overwrite the existing binding in
place, else append a new binding at the end. -/
def dictInsert : List (String × PyValue) → String → PyValue → List (String × PyValue)
  | [], k, v => [(k, v)]
  | p :: rest, k, v => if p.1 = k then (k, v) :: rest else p :: dictInsert rest k v

/-- Whether `needle` is a prefix of `hay`, character by character. -/
def listStartsWith : List Char → List Char → Bool
  | _, [] => true
  | [], _ :: _ => false
  | h :: hs, n :: ns => h = n && listStartsWith hs ns

/-- Whether `needle` occurs contiguously anywhere in `hay`. -/
def listHasInfix : List Char → List Char → Bool
  | [], needle => needle.isEmpty
  | h :: t, needle => listStartsWith (h :: t) needle || listHasInfix t needle

/-- Substring containment, the meaning of Python `needle in hay` on strings. -/
def strContainsSub (hay needle : String) : Bool :=
  listHasInfix hay.data needle.data

/-- Equality of a Python value with a string (the only cross-type comparison
the embedded code performs). -/
def pyEqStr : PyValue → String → Bool
  | .str s, k => s = k
  | _, _ => false

/-- Python membership test `k in v` for a string key `k`: key lookup on
dicts, substring containment on strings, element membership on lists, and a
`TypeError` on `None` and other non-container values. -/
def pyContainsStr (v : PyValue) (k : String) : Except PyError Bool :=
  match v with
  | .dict fs => .ok ((fs.find? (fun p => p.1 = k)).isSome)
  | .str s => .ok (strContainsSub s k)
  | .list xs => .ok (xs.any (fun x => pyEqStr x k))
  | _ => .error (.typeError "argument of type NoneType is not iterable")

/-- Python subscript `v[k]` for a string key `k`: dict lookup (raising
`KeyError` when absent), `TypeError` on every other value shape. -/
def pySubscriptStr (v : PyValue) (k : String) : Except PyError PyValue :=
  match v with
  | .dict fs =>
    match fs.find? (fun p => p.1 = k) with
    | some p => .ok p.2
    | Option.none => .error (.keyError k)
  | _ => .error (.typeError "value is not subscriptable with a string key")

/-- Python `s.rstrip("/")`: remove every trailing slash. -/
def pyRstripSlash (s : String) : String :=
  ⟨(s.data.reverse.dropWhile (fun c => c = '/')).reverse⟩

/-- Whether the last character of `s` is a slash. -/
def endsWithSlash (s : String) : Bool :=
  match s.data.getLast? with
  | some c => c = '/'
  | Option.none => false

/-! ## `src/tesla_mcp/base.py` -/

/-- `DEFAULT_TESLA_BASE_URL` (base.py line 15). -/
def DEFAULT_TESLA_BASE_URL : String := "https://api.myteslamate.com"

/-- `TeslaAPIError` (base.py lines 17-23): `self.payload = payload or {}`
is applied at construction, so the stored payload is the constructor
argument when truthy and the empty dict otherwise.  The message is kept as
a `PyValue` because the code passes `payload.get("error")`, which need not
be a string. -/
structure TeslaAPIError where
  message : PyValue
  status_code : Option Nat
  payload : PyValue

/-- `TeslaRequestContext` (base.py lines 26-36). -/
structure TeslaRequestContext where
  bearer_token : String
  base_url : String

/-- `TeslaRequestContext.from_env` (base.py lines 33-36): resolve
`TESLA_BASE_URL` (the `envBaseUrl` argument models `os.getenv`, so
`Option.none` = variable unset) with the library default, then strip
trailing slashes. -/
def TeslaRequestContext.fromEnv (envBaseUrl : Option String) (bearer_token : String) :
    TeslaRequestContext :=
  let resolved_base := envBaseUrl.getD DEFAULT_TESLA_BASE_URL
  { bearer_token := bearer_token, base_url := pyRstripSlash resolved_base }

/-- An HTTP response as `_handle_response` observes it.  `content` is the
body text (`response.content`/`response.text` carry the same bytes here);
`jsonDecoded` is the outcome of the library call `response.json()`
(`Option.none` = `ValueError`, the body is not decodable JSON); `reason`
and `url` feed the `str(exc)` message of `raise_for_status`. -/
structure HttpResponse where
  status : Nat
  reason : String
  url : String
  content : String
  jsonDecoded : Option PyValue

/-- The message of the `requests.HTTPError` raised by
`Response.raise_for_status` for a 4xx/5xx status (modelled from the
requests library, which the client calls): the client uses it via
`str(exc)`. -/
def httpErrorMessage (r : HttpResponse) : String :=
  if r.status < 500 then
    toString r.status ++ " Client Error: " ++ r.reason ++ " for url: " ++ r.url
  else
    toString r.status ++ " Server Error: " ++ r.reason ++ " for url: " ++ r.url

/-- Whether `Response.raise_for_status` raises: exactly the statuses in
[400, 600) (modelled from the requests library, which the client calls). -/
def raiseForStatus (status : Nat) : Bool :=
  400 ≤ status ∧ status < 600

/-- `TeslaClient._handle_response` (base.py lines 73-90).  On a raising
status: decode the body (`payload = None` on a `ValueError`), prefer a
truthy `error` field of a dict payload for the message, else `str(exc)`,
and construct `TeslaAPIError(message, status_code, payload)` (whose
constructor stores `payload or {}`).  Otherwise: empty body yields `None`,
a decodable body yields the decoded value, an undecodable body yields the
raw text. -/
def handleResponse (r : HttpResponse) : Except TeslaAPIError PyValue :=
  if raiseForStatus r.status then
    let payload := r.jsonDecoded
    let message :=
      match payload with
      | some (.dict fs) =>
        if pyTruthy (dictGetD fs "error") then dictGetD fs "error"
        else .str (httpErrorMessage r)
      | _ => .str (httpErrorMessage r)
    let stored := match payload with
      | some p => if pyTruthy p then p else .dict []
      | Option.none => .dict []
    .error { message := message, status_code := some r.status, payload := stored }
  else if r.content = "" then
    .ok .none
  else
    match r.jsonDecoded with
    | some v => .ok v
    | Option.none => .ok (.str r.content)

/-- An outbound HTTP request as `TeslaClient.request` hands it to
`session.request`. -/
structure HttpRequest where
  method : String
  url : String
  headers : List (String × String)
  params : List (String × PyValue)
  jsonBody : Option (List (String × PyValue))

/-- `TeslaClient._build_headers` (base.py lines 62-71), called from
`request` with no extras. -/
def buildHeaders (context : TeslaRequestContext) : List (String × String) :=
  [("Authorization", "Bearer " ++ context.bearer_token),
   ("Content-Type", "application/json"),
   ("Accept", "application/json"),
   ("User-Agent", "Tesla-MCP/1.0")]

/-- The bypass injection of `TeslaClient.request` (base.py lines 104-108):
`bypass_value = os.getenv("TESLA_BYPASS")`; when it is truthy (set and
non-empty) assign `params["bypass"] = bypass_value` into the params dict
(the caller-supplied dict itself, or the fresh empty dict substituted for
`None`). -/
def applyBypass (bypassEnv : Option String) (ps : List (String × PyValue)) :
    List (String × PyValue) :=
  match bypassEnv with
  | some v => if v ≠ "" ∧ v ≠ "" then dictInsert ps "bypass" (.str v) else ps
  | Option.none => ps

/-- `TeslaClient.request` (base.py lines 92-118), up to handing the request
to the session: `url = f"{base_url}{endpoint}"`, fresh empty params when
the caller passed `None`, bypass injection, headers from
`_build_headers`. -/
def clientRequest (method endpoint : String) (context : TeslaRequestContext)
    (params : Option (List (String × PyValue)))
    (json : Option (List (String × PyValue)))
    (bypassEnv : Option String) : HttpRequest :=
  { method := method
    url := context.base_url ++ endpoint
    headers := buildHeaders context
    params := applyBypass bypassEnv (params.getD [])
    jsonBody := json }

/-- The caller-visible state of the `params` argument after
`TeslaClient.request` returns: the dict passed by the caller is the very
object mutated by the bypass assignment, so it ends up equal to the params
sent; a caller that passed `None` keeps nothing to observe. -/
def callerParamsAfter (bypassEnv : Option String)
    (params : Option (List (String × PyValue))) :
    Option (List (String × PyValue)) :=
  params.map (applyBypass bypassEnv)

/-- `TeslaModule._vehicle_path` (base.py lines 135-138). -/
def vehiclePath (vehicle_tag suffix : String) : String :=
  let clean_suffix := if suffix ≠ "" then "/" ++ suffix else ""
  "/api/1/vehicles/" ++ vehicle_tag ++ clean_suffix

/-! ## Retry configuration (`TeslaClient._build_session`, base.py 47-60) -/

/-- The `urllib3.util.Retry` configuration built by `_build_session`. -/
structure RetryConfig where
  total : Nat
  read : Nat
  connect : Nat
  backoff_factor : Rat
  status_forcelist : List Nat
  allowed_methods : List String

/-- `TeslaClient._build_session` (base.py lines 47-60): the retry policy
mounted on the session. -/
def buildSessionRetry (max_retries : Nat) : RetryConfig :=
  { total := max_retries
    read := max_retries
    connect := max_retries
    backoff_factor := 1 / 2
    status_forcelist := [429, 500, 502, 503, 504]
    allowed_methods := ["GET", "POST", "PUT", "DELETE"] }

/-- The default `max_retries` of `TeslaClient.__init__` (base.py line 41). -/
def defaultMaxRetries : Nat := 3

/-- Outcome of the retrying transport: either a response delivered to
`_handle_response`, or retry exhaustion surfacing as a transport error,
each recording how many attempts were made and the last status seen. -/
inductive RetryOutcome where
  | response (attempts : Nat) (status : Nat)
  | exhausted (attempts : Nat) (status : Nat)

/-- The retrying transport as configured on the session (modelled from the
urllib3 `Retry` semantics the mounted adapter executes): attempt `i`
receives status `resp i`; a status in the forcelist consumes one unit of
retry budget and retries, until the budget is exhausted and the failure
surfaces as a transport error; any other status is delivered to the
response handler at once. -/
def retryLoop (forcelist : List Nat) (resp : Nat → Nat) :
    Nat → Nat → RetryOutcome
  | 0, i =>
    if resp i ∈ forcelist then .exhausted (i + 1) (resp i)
    else .response (i + 1) (resp i)
  | b + 1, i =>
    if resp i ∈ forcelist then retryLoop forcelist resp b (i + 1)
    else .response (i + 1) (resp i)

/-- The backoff delay before retry number `k` (k = 1, 2, ...), as computed
by the urllib3 `Retry` the session mounts: `backoff_factor * 2 ^ (k - 1)`
seconds. -/
def backoffTime (cfg : RetryConfig) (k : Nat) : Rat :=
  cfg.backoff_factor * 2 ^ (k - 1)

/-! ## `src/app copy/modules/commands.py` -/

/-- The result normalisation of `VehicleCommandsModule._command`
(commands.py line 28): `res['response'] if 'response' in res else res`,
with Python membership and subscript semantics on whatever value the
client core returned. -/
def commandUnwrap (res : PyValue) : Except PyError PyValue :=
  match pyContainsStr res "response" with
  | .error e => .error e
  | .ok true => pySubscriptStr res "response"
  | .ok false => .ok res

/-- The full result path of a vehicle command: the client core decodes the
response, then `_command` unwraps it.  The left error is a raised
`TeslaAPIError`, the right error a Python runtime error escaping
`_command`. -/
def commandResult (r : HttpResponse) : Except (TeslaAPIError ⊕ PyError) PyValue :=
  match handleResponse r with
  | .error e => .error (.inl e)
  | .ok res =>
    match commandUnwrap res with
    | .error e => .error (.inr e)
    | .ok v => .ok v

/-- The request issued by `VehicleCommandsModule._command` (commands.py
lines 16-28): a POST to the command path with body `payload or {}`. -/
def commandRequest (vehicle_tag command : String)
    (envBaseUrl bypassEnv : Option String) (bearer_token : String)
    (payload : Option (List (String × PyValue))) : HttpRequest :=
  let context := TeslaRequestContext.fromEnv envBaseUrl bearer_token
  let endpoint := vehiclePath vehicle_tag ("command/" ++ command)
  let body := match payload with
    | some p => if pyTruthy (.dict p) then p else []
    | Option.none => []
  clientRequest "POST" endpoint context .none (some body) bypassEnv

/-! ## `src/app copy/modules/charging.py` -/

/-- One optional query/body entry guarded by Python truthiness
(`if x: params[k] = x`): present exactly when the argument is a set,
non-empty string. -/
def optStrEntry (k : String) (v : Option String) : List (String × PyValue) :=
  match v with
  | some s => if s ≠ "" then [(k, .str s)] else []
  | Option.none => []

/-- One optional entry guarded by `is not None` for an int argument. -/
def optIntEntry (k : String) (v : Option Int) : List (String × PyValue) :=
  match v with
  | some n => [(k, .int n)]
  | Option.none => []

/-- One optional entry guarded by `is not None` for a float argument. -/
def optNumEntry (k : String) (v : Option Rat) : List (String × PyValue) :=
  match v with
  | some q => [(k, .num q)]
  | Option.none => []

/-- One optional entry guarded by `is not None` for a string argument
(unlike `optStrEntry`, an explicit empty string is kept). -/
def optStrEntryN (k : String) (v : Option String) : List (String × PyValue) :=
  match v with
  | some s => [(k, .str s)]
  | Option.none => []

/-- One optional entry guarded by `is not None` for a bool argument. -/
def optBoolEntry (k : String) (v : Option Bool) : List (String × PyValue) :=
  match v with
  | some b => [(k, .bool b)]
  | Option.none => []

/-- The query mapping built by `ChargingModule.charging_history`
(charging.py lines 43-60): `vin`, `startTime`, `endTime`, `sortBy` and
`sortOrder` are added under truthiness guards (`if vin:`), `page` and
`pageSize` under `is not None` guards, in source order. -/
def chargingHistoryParams (vin : Option String) (page pageSize : Option Int)
    (startTime endTime sortBy sortOrder : Option String) :
    List (String × PyValue) :=
  optStrEntry "vin" vin ++ optIntEntry "page" page ++
  optIntEntry "pageSize" pageSize ++ optStrEntry "startTime" startTime ++
  optStrEntry "endTime" endTime ++ optStrEntry "sortBy" sortBy ++
  optStrEntry "sortOrder" sortOrder

/-- `ChargingModule.charging_invoice` (charging.py lines 62-79): a GET on
the invoice path, returning the client core result unchanged.  The pair is
(request issued, result returned for the response `r`). -/
def chargingInvoice (invoice_id : String) (envBaseUrl bypassEnv : Option String)
    (bearer_token : String) (r : HttpResponse) :
    HttpRequest × Except TeslaAPIError PyValue :=
  let context := TeslaRequestContext.fromEnv envBaseUrl bearer_token
  let endpoint := "/api/1/dx/charging/invoice/" ++ invoice_id
  (clientRequest "GET" endpoint context .none .none bypassEnv, handleResponse r)

/-! ## `src/app copy/modules/energy.py` -/

/-- `EnergyModule._energy_site_path` (energy.py lines 16-20). -/
def energySitePath (energy_site_id suffix : String) : String :=
  let clean_suffix := if suffix ≠ "" then "/" ++ suffix else ""
  "/api/1/energy_sites/" ++ energy_site_id ++ clean_suffix

/-- `EnergyModule.site_info` (energy.py lines 24-38): a GET on the
`site_info` path, returning the client core result unchanged (no
unwrapping).  The pair is (request issued, result returned for the
response `r`). -/
def siteInfo (energy_site_id : String) (envBaseUrl bypassEnv : Option String)
    (bearer_token : String) (r : HttpResponse) :
    HttpRequest × Except TeslaAPIError PyValue :=
  let context := TeslaRequestContext.fromEnv envBaseUrl bearer_token
  let endpoint := energySitePath energy_site_id "site_info"
  (clientRequest "GET" endpoint context .none .none bypassEnv, handleResponse r)

/-- The JSON body built by `EnergyModule.grid_import_export` (energy.py
lines 254-261): both fields are added under `is not None` guards. -/
def gridImportExportPayload
    (disallow_charge_from_grid_with_solar_installed : Option Bool)
    (customer_preferred_export_rule : Option String) :
    List (String × PyValue) :=
  optBoolEntry "disallow_charge_from_grid_with_solar_installed"
    disallow_charge_from_grid_with_solar_installed ++
  optStrEntryN "customer_preferred_export_rule" customer_preferred_export_rule

/-- The JSON body built by `VehicleCommandsModule.set_temps` (commands.py
lines 78-83): both fields are added under `is not None` guards. -/
def setTempsPayload (driver_temp passenger_temp : Option Rat) :
    List (String × PyValue) :=
  optNumEntry "driver_temp" driver_temp ++
  optNumEntry "passenger_temp" passenger_temp

/-! ## `src/tesla_mcp/modules/teslamateapi.py` -/

/-- `TeslaMateAPIModule._get_teslamate_context` (teslamateapi.py lines
17-22): the caller-supplied TeslaMate endpoint, trailing slashes
stripped. -/
def getTeslamateContext (bearer_token endpoint : String) : TeslaRequestContext :=
  { bearer_token := bearer_token, base_url := pyRstripSlash endpoint }

/-- Whether a Python value is `None` (used to state that no parameter is
ever sent as JSON null). -/
def pyIsNone : PyValue → Bool
  | .none => true
  | _ => false

/-! ## Helper lemmas -/

lemma head?_dropWhile_false (p : Char → Bool) (l : List Char) (c : Char)
    (h : (l.dropWhile p).head? = some c) : p c = false := by
  induction l with
  | nil => simp [List.dropWhile] at h
  | cons a t ih =>
    rw [List.dropWhile_cons] at h
    split at h
    · exact ih h
    · next hp =>
      simp only [List.head?_cons, Option.some.injEq] at h
      subst h
      simpa using hp

lemma endsWithSlash_pyRstripSlash (s : String) :
    endsWithSlash (pyRstripSlash s) = false := by
  unfold endsWithSlash pyRstripSlash
  rw [show (String.mk ((s.data.reverse.dropWhile (fun c => c = '/')).reverse)).data
        = (s.data.reverse.dropWhile (fun c => c = '/')).reverse from rfl]
  rw [List.getLast?_reverse]
  cases h : (s.data.reverse.dropWhile (fun c => c = '/')).head? with
  | none => rfl
  | some c =>
    have hc := head?_dropWhile_false _ _ _ h
    simpa using hc

lemma dictGet_nil (k : String) : dictGet [] k = Option.none := rfl

lemma dictGet_cons (p : String × PyValue) (fs : List (String × PyValue)) (k : String) :
    dictGet (p :: fs) k = if p.1 = k then some p.2 else dictGet fs k := by
  by_cases h : p.1 = k <;> simp [dictGet, List.find?_cons, h]

lemma dictGet_append (l1 l2 : List (String × PyValue)) (k : String) :
    dictGet (l1 ++ l2) k = (dictGet l1 k).or (dictGet l2 k) := by
  unfold dictGet
  rw [List.find?_append]
  cases l1.find? (fun p => p.1 = k) <;> simp

lemma dictGet_dictInsert_self (fs : List (String × PyValue)) (k : String) (v : PyValue) :
    dictGet (dictInsert fs k v) k = some v := by
  induction fs with
  | nil => simp [dictInsert, dictGet_cons]
  | cons a t ih =>
    by_cases h : a.1 = k
    · simp [dictInsert, h, dictGet_cons]
    · simp [dictInsert, h, dictGet_cons, ih]

lemma dictGet_dictInsert_ne (fs : List (String × PyValue)) (k k' : String) (v : PyValue)
    (h : k' ≠ k) : dictGet (dictInsert fs k v) k' = dictGet fs k' := by
  induction fs with
  | nil => simp [dictInsert, dictGet_cons, dictGet_nil, Ne.symm h]
  | cons a t ih =>
    by_cases ha : a.1 = k
    · simp [dictInsert, ha, dictGet_cons, Ne.symm h]
    · by_cases ha' : a.1 = k' <;> simp [dictInsert, ha, ha', dictGet_cons, ih, h]

/-! ## Claim theorems -/

/-- C4: for every operation invoked with a context whose base URL is `B`
and targeting path `P`, the request URL is exactly `B ++ P`; and every
context produced by `TeslaRequestContext.from_env` or from a
caller-supplied TeslaMate endpoint has a `base_url` with no trailing
slash, so a path starting with `/` never creates a double slash or a
duplicated trailing slash at the junction. -/
theorem c4_request_url_exact :
    (∀ method endpoint context params json bypassEnv,
       (clientRequest method endpoint context params json bypassEnv).url =
         context.base_url ++ endpoint) ∧
    (∀ envBaseUrl bearer_token,
       endsWithSlash (TeslaRequestContext.fromEnv envBaseUrl bearer_token).base_url =
         false) ∧
    (∀ bearer_token endpoint,
       endsWithSlash (getTeslamateContext bearer_token endpoint).base_url = false) := by
  refine ⟨fun _ _ _ _ _ _ => rfl, fun envBaseUrl bearer_token => ?_,
    fun bearer_token endpoint => ?_⟩
  · exact endsWithSlash_pyRstripSlash _
  · exact endsWithSlash_pyRstripSlash _

/-- C6: every 2xx response with an empty body yields the explicit absent
result (`None`), not an error. -/
theorem c6_empty_body_absent (r : HttpResponse)
    (h2 : 200 ≤ r.status) (h3 : r.status < 300) (hc : r.content = "") :
    handleResponse r = .ok .none := by
  have hb : raiseForStatus r.status = false := by
    simp only [raiseForStatus, decide_eq_false_iff_not]
    omega
  simp [handleResponse, hb, hc]

/-- C6 witness: a concrete 200 response with an empty body. -/
theorem c6_empty_body_absent_witness :
    handleResponse (HttpResponse.mk 200 "OK" "u" "" Option.none) = .ok .none :=
  c6_empty_body_absent _ (by decide) (by decide) rfl

/-- C7: every 2xx response whose non-empty body fails JSON decoding is
returned as the raw text payload unchanged by `charging_invoice`
(which passes the client core result through), with no decode error. -/
theorem c7_invoice_raw_text (invoice_id : String)
    (envBaseUrl bypassEnv : Option String) (bearer_token : String)
    (r : HttpResponse) (h2 : 200 ≤ r.status) (h3 : r.status < 300)
    (hc : ¬ r.content = "") (hj : r.jsonDecoded = Option.none) :
    (chargingInvoice invoice_id envBaseUrl bypassEnv bearer_token r).2 =
      .ok (.str r.content) := by
  have hb : raiseForStatus r.status = false := by
    simp only [raiseForStatus, decide_eq_false_iff_not]
    omega
  simp [chargingInvoice, handleResponse, hb, hc, hj]

/-- C7 witness: `charging_invoice("INV1")` against a 200 response carrying
an undecodable PDF body returns that body unchanged. -/
theorem c7_invoice_raw_text_witness :
    (chargingInvoice "INV1" Option.none Option.none "T"
        (HttpResponse.mk 200 "OK" "u" "%PDF-1.4 binary" Option.none)).2 =
      .ok (.str "%PDF-1.4 binary") :=
  c7_invoice_raw_text "INV1" Option.none Option.none "T" _
    (by decide) (by decide) (by decide) rfl

/-- C9: when the bypass environment variable is set to a non-empty value,
every outbound request's query parameters bind the key `bypass` to that
value; when it is unset or empty the params mapping is passed through
unchanged, so no `bypass` key is added. -/
theorem c9_bypass_injection :
    (∀ method endpoint context params json v, v ≠ "" →
       dictGet (clientRequest method endpoint context params json (some v)).params
         "bypass" = some (.str v)) ∧
    (∀ method endpoint context params json,
       (clientRequest method endpoint context params json Option.none).params =
         params.getD []) ∧
    (∀ method endpoint context params json,
       (clientRequest method endpoint context params json (some "")).params =
         params.getD []) := by
  refine ⟨?_, fun _ _ _ _ _ => rfl, fun _ _ _ _ _ => ?_⟩
  · intro method endpoint context params json v hv
    simp [clientRequest, applyBypass, hv, dictGet_dictInsert_self]
  · simp [clientRequest, applyBypass]

/-- C9 witness: a concrete request with `TESLA_BYPASS=X` carries
`bypass=X`. -/
theorem c9_bypass_injection_witness :
    dictGet (clientRequest "GET" "/e" (TeslaRequestContext.mk "T" "B")
        Option.none Option.none (some "X")).params "bypass" =
      some (PyValue.str "X") :=
  c9_bypass_injection.1 "GET" "/e" _ Option.none Option.none "X" (by decide)

/-- C3 counterexample: the claim says a response with any other non-2xx
status surfaces an error immediately, but a 304 (non-2xx, not in the
forcelist) is delivered after a single attempt and then handled as a
success by the client, so no error surfaces at all. -/
theorem c3_retry_policy_counterexample :
    retryLoop (buildSessionRetry defaultMaxRetries).status_forcelist (fun _ => 304)
      (buildSessionRetry defaultMaxRetries).total 0 = .response 1 304 ∧
    handleResponse (HttpResponse.mk 304 "Not Modified" "loc" "" Option.none) =
      .ok .none :=
  ⟨rfl, rfl⟩

/-- C3 (amended): the session retry policy is configured with budget 3,
backoff factor 0.5 and retryable statuses exactly {429, 500, 502, 503,
504}; a stream of retryable statuses is retried 3 additional times (4
attempts) before the failure surfaces, and any other status is never
retried and is delivered to the response handler after a single attempt,
where a status in [400, 600) surfaces an error immediately while any other
status (such as a 3xx) is handled as a success; the backoff delay starts
at 0.5s and doubles on each further retry. -/
theorem c3_retry_policy :
    (buildSessionRetry defaultMaxRetries).total = 3 ∧
    (buildSessionRetry defaultMaxRetries).backoff_factor = 1 / 2 ∧
    (buildSessionRetry defaultMaxRetries).status_forcelist =
      [429, 500, 502, 503, 504] ∧
    (∀ resp : Nat → Nat,
       (∀ i, resp i ∈ (buildSessionRetry defaultMaxRetries).status_forcelist) →
       retryLoop (buildSessionRetry defaultMaxRetries).status_forcelist resp
         (buildSessionRetry defaultMaxRetries).total 0 = .exhausted 4 (resp 3)) ∧
    (∀ resp : Nat → Nat,
       resp 0 ∉ (buildSessionRetry defaultMaxRetries).status_forcelist →
       retryLoop (buildSessionRetry defaultMaxRetries).status_forcelist resp
         (buildSessionRetry defaultMaxRetries).total 0 = .response 1 (resp 0)) ∧
    (∀ r : HttpResponse, 400 ≤ r.status → r.status < 600 →
       ∃ e, handleResponse r = .error e) ∧
    (∀ r : HttpResponse, ¬ (400 ≤ r.status ∧ r.status < 600) →
       ∃ v, handleResponse r = .ok v) ∧
    backoffTime (buildSessionRetry defaultMaxRetries) 1 = 1 / 2 ∧
    (∀ k, 1 ≤ k →
       backoffTime (buildSessionRetry defaultMaxRetries) (k + 1) =
         2 * backoffTime (buildSessionRetry defaultMaxRetries) k) := by
  refine ⟨rfl, rfl, rfl, ?_, ?_, ?_, ?_, ?_, ?_⟩
  · intro resp h
    show retryLoop _ resp 3 0 = _
    simp [retryLoop, h 0, h 1, h 2, h 3]
  · intro resp h
    show retryLoop _ resp 3 0 = _
    simp [retryLoop, h]
  · intro r h4 h6
    have hb : raiseForStatus r.status = true := by
      simp only [raiseForStatus, decide_eq_true_eq]
      exact ⟨h4, h6⟩
    cases hm : handleResponse r with
    | error e => exact ⟨e, rfl⟩
    | ok v => simp [handleResponse, hb] at hm
  · intro r hnot
    have hb : raiseForStatus r.status = false := by
      simp only [raiseForStatus, decide_eq_false_iff_not]
      exact hnot
    by_cases hc : r.content = ""
    · exact ⟨.none, by simp [handleResponse, hb, hc]⟩
    · cases hj : r.jsonDecoded with
      | none => exact ⟨.str r.content, by simp [handleResponse, hb, hc, hj]⟩
      | some v => exact ⟨v, by simp [handleResponse, hb, hc, hj]⟩
  · norm_num [backoffTime, buildSessionRetry]
  · intro k hk
    obtain ⟨m, rfl⟩ : ∃ m, k = m + 1 := ⟨k - 1, by omega⟩
    simp only [backoffTime, Nat.add_sub_cancel]
    rw [pow_succ]
    ring

/-- C3 witness: a stream of 503s exhausts after 4 attempts; a 404 is
delivered after one attempt and raises an error; a 304 is delivered after
one attempt and is handled as a success; the second backoff doubles the
first. -/
theorem c3_retry_policy_witness :
    retryLoop (buildSessionRetry defaultMaxRetries).status_forcelist (fun _ => 503)
      (buildSessionRetry defaultMaxRetries).total 0 = .exhausted 4 503 ∧
    retryLoop (buildSessionRetry defaultMaxRetries).status_forcelist (fun _ => 404)
      (buildSessionRetry defaultMaxRetries).total 0 = .response 1 404 ∧
    (∃ e, handleResponse (HttpResponse.mk 404 "Not Found" "u" "{}"
       (some (.dict []))) = .error e) ∧
    (∃ v, handleResponse (HttpResponse.mk 304 "Not Modified" "u" "" Option.none) =
       .ok v) ∧
    backoffTime (buildSessionRetry defaultMaxRetries) 2 =
      2 * backoffTime (buildSessionRetry defaultMaxRetries) 1 :=
  ⟨c3_retry_policy.2.2.2.1 (fun _ => 503)
     (fun i => by show (503 : Nat) ∈ [429, 500, 502, 503, 504]; decide),
   c3_retry_policy.2.2.2.2.1 (fun _ => 404) (by decide),
   c3_retry_policy.2.2.2.2.2.1 _ (by decide) (by decide),
   c3_retry_policy.2.2.2.2.2.2.1 _ (by decide),
   c3_retry_policy.2.2.2.2.2.2.2.2 1 (by decide)⟩

/-- C8: `site_info("site123")` with bearer token `T` issues a GET to
`{base}/api/1/energy_sites/site123/site_info` carrying header
`Authorization: Bearer T`, no JSON body and no query parameters, and a
200 response decoding to a dict with a `response` field is returned
verbatim, with no unwrapping. -/
theorem c8_site_info_roundtrip (envBaseUrl : Option String) (r : HttpResponse)
    (X : PyValue) (hs : r.status = 200) (hc : ¬ r.content = "")
    (hj : r.jsonDecoded = some (.dict [("response", X)])) :
    (siteInfo "site123" envBaseUrl Option.none "T" r).1.method = "GET" ∧
    (siteInfo "site123" envBaseUrl Option.none "T" r).1.url =
      (TeslaRequestContext.fromEnv envBaseUrl "T").base_url ++
        "/api/1/energy_sites/site123/site_info" ∧
    ("Authorization", "Bearer T") ∈
      (siteInfo "site123" envBaseUrl Option.none "T" r).1.headers ∧
    (siteInfo "site123" envBaseUrl Option.none "T" r).1.jsonBody = Option.none ∧
    (siteInfo "site123" envBaseUrl Option.none "T" r).1.params = [] ∧
    (siteInfo "site123" envBaseUrl Option.none "T" r).2 =
      .ok (.dict [("response", X)]) := by
  have hb : raiseForStatus r.status = false := by
    simp only [raiseForStatus, decide_eq_false_iff_not]
    omega
  refine ⟨rfl, rfl, ?_, rfl, rfl, ?_⟩
  · show ("Authorization", "Bearer T") ∈
      [("Authorization", "Bearer T"), ("Content-Type", "application/json"),
       ("Accept", "application/json"), ("User-Agent", "Tesla-MCP/1.0")]
    simp
  · simp [siteInfo, handleResponse, hb, hc, hj]

/-- C8 witness: the verbatim-return half at a concrete 200 response. -/
theorem c8_site_info_roundtrip_witness :
    (siteInfo "site123" Option.none Option.none "T"
        (HttpResponse.mk 200 "OK" "u" "x"
          (some (.dict [("response", .dict [("id", .int 7)])])))).2 =
      .ok (.dict [("response", .dict [("id", .int 7)])]) :=
  (c8_site_info_roundtrip Option.none _ _ rfl (by decide) rfl).2.2.2.2.2

/-- C10: when the bypass variable is set non-empty and the caller passes a
params mapping, that mapping as observed after the call has `bypass` bound
to the bypass value (overwriting any caller-supplied `bypass` entry), all
other keys unchanged, and equals the mapping actually sent (the code
mutates the caller-owned dict in place); the json argument is passed
through unchanged, and a caller that passed no mapping has no state to
observe. -/
theorem c10_params_mutation :
    (∀ ps v, v ≠ "" →
       callerParamsAfter (some v) (some ps) =
         some (dictInsert ps "bypass" (PyValue.str v))) ∧
    (∀ ps (v : String),
       dictGet (dictInsert ps "bypass" (PyValue.str v)) "bypass" =
         some (PyValue.str v)) ∧
    (∀ ps k (v : PyValue), k ≠ "bypass" →
       dictGet (dictInsert ps "bypass" v) k = dictGet ps k) ∧
    (∀ method endpoint context ps json bypassEnv,
       (clientRequest method endpoint context ps json bypassEnv).jsonBody = json) ∧
    (∀ bypassEnv, callerParamsAfter bypassEnv Option.none = Option.none) ∧
    (∀ method endpoint context ps json bypassEnv,
       (clientRequest method endpoint context (some ps) json bypassEnv).params =
         (callerParamsAfter bypassEnv (some ps)).getD []) := by
  refine ⟨?_, ?_, ?_, fun _ _ _ _ _ _ => rfl, fun _ => rfl, fun _ _ _ _ _ _ => rfl⟩
  · intro ps v hv
    simp [callerParamsAfter, applyBypass, hv]
  · intro ps v
    exact dictGet_dictInsert_self ps "bypass" (PyValue.str v)
  · intro ps k v hk
    exact dictGet_dictInsert_ne ps "bypass" k v hk

/-- C10 witness: a caller-supplied mapping with an old `bypass` entry is
overwritten in place and its other entry is untouched. -/
theorem c10_params_mutation_witness :
    callerParamsAfter (some "X")
        (some [("bypass", PyValue.str "old"), ("page", PyValue.int 2)]) =
      some [("bypass", PyValue.str "X"), ("page", PyValue.int 2)] ∧
    dictGet (dictInsert [("page", PyValue.int 2)] "bypass" (PyValue.str "X"))
        "page" = some (PyValue.int 2) :=
  ⟨c10_params_mutation.1 _ "X" (by decide),
   c10_params_mutation.2.2.1 _ "page" _ (by decide)⟩

/-- C1 counterexample: the claim says an absent (None) decoded result is
returned unchanged by a vehicle-command operation, but `_command`
evaluates `'response' in None`, which raises a TypeError instead of
returning the result. -/
theorem c1_command_unwrap_counterexample :
    commandUnwrap PyValue.none =
      .error (.typeError "argument of type NoneType is not iterable") := rfl

/-- C1 (amended): a decoded dict with a `response` binding is unwrapped to
that binding, a dict without it is returned unchanged, and a raw-text
result not containing the substring `response` is returned unchanged; but
an absent (None) result, or a raw-text result containing the substring
`response`, makes `_command` raise a TypeError rather than return the
result. -/
theorem c1_command_unwrap_amended :
    (∀ fs X, dictGet fs "response" = some X →
       commandUnwrap (.dict fs) = .ok X) ∧
    (∀ fs, dictGet fs "response" = Option.none →
       commandUnwrap (.dict fs) = .ok (.dict fs)) ∧
    (∀ s, strContainsSub s "response" = false →
       commandUnwrap (.str s) = .ok (.str s)) ∧
    (∀ s, strContainsSub s "response" = true →
       commandUnwrap (.str s) =
         .error (.typeError "value is not subscriptable with a string key")) ∧
    commandUnwrap PyValue.none =
      .error (.typeError "argument of type NoneType is not iterable") := by
  refine ⟨?_, ?_, ?_, ?_, rfl⟩
  · intro fs X h
    unfold dictGet at h
    cases hf : fs.find? (fun p => p.1 = "response") with
    | none => rw [hf] at h; simp at h
    | some p =>
      rw [hf] at h
      simp only [Option.map_some', Option.some.injEq] at h
      simp [commandUnwrap, pyContainsStr, pySubscriptStr, hf, h]
  · intro fs h
    unfold dictGet at h
    cases hf : fs.find? (fun p => p.1 = "response") with
    | none => simp [commandUnwrap, pyContainsStr, hf]
    | some p => rw [hf] at h; simp at h
  · intro s h
    simp [commandUnwrap, pyContainsStr, h]
  · intro s h
    simp [commandUnwrap, pyContainsStr, pySubscriptStr, h]

/-- C1 witness: concrete instances of each amended case. -/
theorem c1_command_unwrap_amended_witness :
    commandUnwrap (PyValue.dict [("response", PyValue.bool true)]) =
      .ok (PyValue.bool true) ∧
    commandUnwrap (PyValue.dict [("ok", PyValue.bool true)]) =
      .ok (PyValue.dict [("ok", PyValue.bool true)]) ∧
    commandUnwrap (PyValue.str "pdf") = .ok (PyValue.str "pdf") ∧
    commandUnwrap (PyValue.str "no response here") =
      .error (.typeError "value is not subscriptable with a string key") :=
  ⟨c1_command_unwrap_amended.1 _ _ rfl, c1_command_unwrap_amended.2.1 _ rfl,
   c1_command_unwrap_amended.2.2.1 _ rfl, c1_command_unwrap_amended.2.2.2.1 _ rfl⟩

/-- C2 counterexample: the claim says every non-2xx response raises an
APIError, but `raise_for_status` only raises for 4xx/5xx, so a 304
response with an empty body is handled as a success and yields the absent
result. -/
theorem c2_error_mapping_counterexample :
    handleResponse (HttpResponse.mk 304 "Not Modified" "u" "" Option.none) =
      .ok .none := rfl

/-- C2 (amended): every response with status in [400, 600) raises exactly
one structured APIError whose status_code is the response status; the
message is the decoded dict body's `error` field when that field is truthy
and the generic HTTP status description otherwise; the carried payload is
the decoded body when it is decodable and truthy, and the empty dict when
the body is undecodable or decodes to a falsy value. -/
theorem c2_error_mapping_amended :
    (∀ r fs, 400 ≤ r.status → r.status < 600 →
       r.jsonDecoded = some (.dict fs) →
       pyTruthy (dictGetD fs "error") = true →
       handleResponse r =
         .error (TeslaAPIError.mk (dictGetD fs "error") (some r.status)
           (.dict fs))) ∧
    (∀ r fs, 400 ≤ r.status → r.status < 600 →
       r.jsonDecoded = some (.dict fs) →
       pyTruthy (dictGetD fs "error") = false →
       handleResponse r =
         .error (TeslaAPIError.mk (.str (httpErrorMessage r)) (some r.status)
           (if pyTruthy (.dict fs) then .dict fs else .dict []))) ∧
    (∀ r p, 400 ≤ r.status → r.status < 600 →
       r.jsonDecoded = some p → (∀ fs, p ≠ .dict fs) →
       handleResponse r =
         .error (TeslaAPIError.mk (.str (httpErrorMessage r)) (some r.status)
           (if pyTruthy p then p else .dict []))) ∧
    (∀ r, 400 ≤ r.status → r.status < 600 → r.jsonDecoded = Option.none →
       handleResponse r =
         .error (TeslaAPIError.mk (.str (httpErrorMessage r)) (some r.status)
           (.dict []))) := by
  refine ⟨?_, ?_, ?_, ?_⟩
  · intro r fs h4 h6 hj he
    have hb : raiseForStatus r.status = true := by
      simp only [raiseForStatus, decide_eq_true_eq]
      exact ⟨h4, h6⟩
    have hne : pyTruthy (.dict fs) = true := by
      cases fs with
      | nil => simp [dictGetD, dictGet_nil, pyTruthy] at he
      | cons a t => simp [pyTruthy]
    simp [handleResponse, hb, hj, he, hne]
  · intro r fs h4 h6 hj he
    have hb : raiseForStatus r.status = true := by
      simp only [raiseForStatus, decide_eq_true_eq]
      exact ⟨h4, h6⟩
    simp [handleResponse, hb, hj, he]
  · intro r p h4 h6 hj hnd
    have hb : raiseForStatus r.status = true := by
      simp only [raiseForStatus, decide_eq_true_eq]
      exact ⟨h4, h6⟩
    cases p with
    | dict fs => exact absurd rfl (hnd fs)
    | none => simp [handleResponse, hb, hj]
    | str s => simp [handleResponse, hb, hj]
    | int n => simp [handleResponse, hb, hj]
    | num q => simp [handleResponse, hb, hj]
    | bool b => simp [handleResponse, hb, hj]
    | list xs => simp [handleResponse, hb, hj]
  · intro r h4 h6 hj
    have hb : raiseForStatus r.status = true := by
      simp only [raiseForStatus, decide_eq_true_eq]
      exact ⟨h4, h6⟩
    simp [handleResponse, hb, hj]

/-- C2 witness: a concrete 401 with body `{"error": "invalid bearer
token"}` raises an APIError with that message, status 401, and the decoded
body as payload. -/
theorem c2_error_mapping_amended_witness :
    handleResponse (HttpResponse.mk 401 "Unauthorized" "u" "e"
        (some (.dict [("error", .str "invalid bearer token")]))) =
      .error (TeslaAPIError.mk (.str "invalid bearer token") (some 401)
        (.dict [("error", .str "invalid bearer token")])) := by
  have h := c2_error_mapping_amended.1
    (HttpResponse.mk 401 "Unauthorized" "u" "e"
      (some (.dict [("error", .str "invalid bearer token")])))
    [("error", .str "invalid bearer token")]
    (by decide) (by decide) rfl rfl
  exact h

lemma dictGet_optStrEntry_ne (k k' : String) (v : Option String) (h : ¬ k = k') :
    dictGet (optStrEntry k v) k' = Option.none := by
  cases v with
  | none => rfl
  | some s =>
    by_cases hs : s = "" <;> simp [optStrEntry, hs, dictGet_cons, dictGet_nil, h]

lemma dictGet_optStrEntryN_ne (k k' : String) (v : Option String) (h : ¬ k = k') :
    dictGet (optStrEntryN k v) k' = Option.none := by
  cases v with
  | none => rfl
  | some s => simp [optStrEntryN, dictGet_cons, dictGet_nil, h]

lemma dictGet_optIntEntry_ne (k k' : String) (v : Option Int) (h : ¬ k = k') :
    dictGet (optIntEntry k v) k' = Option.none := by
  cases v with
  | none => rfl
  | some n => simp [optIntEntry, dictGet_cons, dictGet_nil, h]

lemma dictGet_optNumEntry_ne (k k' : String) (v : Option Rat) (h : ¬ k = k') :
    dictGet (optNumEntry k v) k' = Option.none := by
  cases v with
  | none => rfl
  | some q => simp [optNumEntry, dictGet_cons, dictGet_nil, h]

lemma dictGet_optBoolEntry_ne (k k' : String) (v : Option Bool) (h : ¬ k = k') :
    dictGet (optBoolEntry k v) k' = Option.none := by
  cases v with
  | none => rfl
  | some b => simp [optBoolEntry, dictGet_cons, dictGet_nil, h]

lemma all_notNone_optStrEntry (k : String) (v : Option String) :
    (optStrEntry k v).all (fun p => !pyIsNone p.2) = true := by
  cases v with
  | none => rfl
  | some s => by_cases hs : s = "" <;> simp [optStrEntry, hs, pyIsNone]

lemma all_notNone_optStrEntryN (k : String) (v : Option String) :
    (optStrEntryN k v).all (fun p => !pyIsNone p.2) = true := by
  cases v with
  | none => rfl
  | some s => simp [optStrEntryN, pyIsNone]

lemma all_notNone_optIntEntry (k : String) (v : Option Int) :
    (optIntEntry k v).all (fun p => !pyIsNone p.2) = true := by
  cases v with
  | none => rfl
  | some n => simp [optIntEntry, pyIsNone]

lemma all_notNone_optNumEntry (k : String) (v : Option Rat) :
    (optNumEntry k v).all (fun p => !pyIsNone p.2) = true := by
  cases v with
  | none => rfl
  | some q => simp [optNumEntry, pyIsNone]

lemma all_notNone_optBoolEntry (k : String) (v : Option Bool) :
    (optBoolEntry k v).all (fun p => !pyIsNone p.2) = true := by
  cases v with
  | none => rfl
  | some b => simp [optBoolEntry, pyIsNone]

lemma optStrEntry_none (k : String) : optStrEntry k Option.none = [] := rfl

lemma optStrEntry_empty (k : String) : optStrEntry k (some "") = [] := by
  simp [optStrEntry]

lemma optStrEntryN_none (k : String) : optStrEntryN k Option.none = [] := rfl

lemma optStrEntryN_some (k s : String) :
    optStrEntryN k (some s) = [(k, PyValue.str s)] := rfl

lemma optIntEntry_none (k : String) : optIntEntry k Option.none = [] := rfl

lemma optNumEntry_none (k : String) : optNumEntry k Option.none = [] := rfl

lemma optBoolEntry_none (k : String) : optBoolEntry k Option.none = [] := rfl

/-- C5 counterexample: the claim says no key is ever sent with an empty
string value, but `grid_import_export` guards
`customer_preferred_export_rule` only with `is not None`, so an explicit
empty string is sent as the value. -/
theorem c5_optional_params_counterexample :
    gridImportExportPayload Option.none (some "") =
      [("customer_preferred_export_rule", PyValue.str "")] := rfl

/-- C5 (amended): every optional parameter left unset (None) is omitted
from the query mapping or JSON body, and no key is ever sent with a null
value; parameters guarded by truthiness (such as the string filters of
`charging_history`) are additionally omitted when supplied as an empty
string, but a parameter guarded only by `is not None` (such as
`customer_preferred_export_rule`) is sent as an empty string when the
caller explicitly passes one. -/
theorem c5_optional_params_amended :
    (∀ page pageSize st et sb so,
       dictGet (chargingHistoryParams Option.none page pageSize st et sb so)
         "vin" = Option.none ∧
       dictGet (chargingHistoryParams (some "") page pageSize st et sb so)
         "vin" = Option.none) ∧
    (∀ vin pageSize st et sb so,
       dictGet (chargingHistoryParams vin Option.none pageSize st et sb so)
         "page" = Option.none) ∧
    (∀ vin page st et sb so,
       dictGet (chargingHistoryParams vin page Option.none st et sb so)
         "pageSize" = Option.none) ∧
    (∀ vin page pageSize et sb so,
       dictGet (chargingHistoryParams vin page pageSize Option.none et sb so)
         "startTime" = Option.none ∧
       dictGet (chargingHistoryParams vin page pageSize (some "") et sb so)
         "startTime" = Option.none) ∧
    (∀ vin page pageSize st sb so,
       dictGet (chargingHistoryParams vin page pageSize st Option.none sb so)
         "endTime" = Option.none ∧
       dictGet (chargingHistoryParams vin page pageSize st (some "") sb so)
         "endTime" = Option.none) ∧
    (∀ vin page pageSize st et so,
       dictGet (chargingHistoryParams vin page pageSize st et Option.none so)
         "sortBy" = Option.none ∧
       dictGet (chargingHistoryParams vin page pageSize st et (some "") so)
         "sortBy" = Option.none) ∧
    (∀ vin page pageSize st et sb,
       dictGet (chargingHistoryParams vin page pageSize st et sb Option.none)
         "sortOrder" = Option.none ∧
       dictGet (chargingHistoryParams vin page pageSize st et sb (some ""))
         "sortOrder" = Option.none) ∧
    (∀ rule, dictGet (gridImportExportPayload Option.none rule)
       "disallow_charge_from_grid_with_solar_installed" = Option.none) ∧
    (∀ d, dictGet (gridImportExportPayload d Option.none)
       "customer_preferred_export_rule" = Option.none) ∧
    (∀ pt, dictGet (setTempsPayload Option.none pt) "driver_temp" =
       Option.none) ∧
    (∀ dt, dictGet (setTempsPayload dt Option.none) "passenger_temp" =
       Option.none) ∧
    (∀ vin page pageSize st et sb so,
       (chargingHistoryParams vin page pageSize st et sb so).all
         (fun p => !pyIsNone p.2) = true) ∧
    (∀ d rule, (gridImportExportPayload d rule).all
       (fun p => !pyIsNone p.2) = true) ∧
    (∀ dt pt, (setTempsPayload dt pt).all (fun p => !pyIsNone p.2) = true) ∧
    (∀ d, dictGet (gridImportExportPayload d (some ""))
       "customer_preferred_export_rule" = some (PyValue.str "")) := by
  refine ⟨?_, ?_, ?_, ?_, ?_, ?_, ?_, ?_, ?_, ?_, ?_, ?_, ?_, ?_, ?_⟩
  · intro page pageSize st et sb so
    constructor <;>
      simp [chargingHistoryParams, optStrEntry_none, optStrEntry_empty,
        dictGet_append, dictGet_optStrEntry_ne, dictGet_optIntEntry_ne]
  · intro vin pageSize st et sb so
    simp [chargingHistoryParams, optIntEntry_none, dictGet_append,
      dictGet_optStrEntry_ne, dictGet_optIntEntry_ne]
  · intro vin page st et sb so
    simp [chargingHistoryParams, optIntEntry_none, dictGet_append,
      dictGet_optStrEntry_ne, dictGet_optIntEntry_ne]
  · intro vin page pageSize et sb so
    constructor <;>
      simp [chargingHistoryParams, optStrEntry_none, optStrEntry_empty,
        dictGet_append, dictGet_optStrEntry_ne, dictGet_optIntEntry_ne]
  · intro vin page pageSize st sb so
    constructor <;>
      simp [chargingHistoryParams, optStrEntry_none, optStrEntry_empty,
        dictGet_append, dictGet_optStrEntry_ne, dictGet_optIntEntry_ne]
  · intro vin page pageSize st et so
    constructor <;>
      simp [chargingHistoryParams, optStrEntry_none, optStrEntry_empty,
        dictGet_append, dictGet_optStrEntry_ne, dictGet_optIntEntry_ne]
  · intro vin page pageSize st et sb
    constructor <;>
      simp [chargingHistoryParams, optStrEntry_none, optStrEntry_empty,
        dictGet_append, dictGet_optStrEntry_ne, dictGet_optIntEntry_ne]
  · intro rule
    simp [gridImportExportPayload, optBoolEntry_none, dictGet_append,
      dictGet_optStrEntryN_ne]
  · intro d
    simp [gridImportExportPayload, optStrEntryN_none, dictGet_append,
      dictGet_optBoolEntry_ne]
  · intro pt
    simp [setTempsPayload, optNumEntry_none, dictGet_append,
      dictGet_optNumEntry_ne]
  · intro dt
    simp [setTempsPayload, optNumEntry_none, dictGet_append,
      dictGet_optNumEntry_ne]
  · intro vin page pageSize st et sb so
    simp [chargingHistoryParams, List.all_append, all_notNone_optStrEntry,
      all_notNone_optIntEntry]
  · intro d rule
    simp [gridImportExportPayload, List.all_append, all_notNone_optBoolEntry,
      all_notNone_optStrEntryN]
  · intro dt pt
    simp [setTempsPayload, List.all_append, all_notNone_optNumEntry]
  · intro d
    simp [gridImportExportPayload, optStrEntryN_some, dictGet_append,
      dictGet_optBoolEntry_ne, dictGet_cons]
